import Mathlib

/-!
Shallow embedding of the forward-expectations backtesting pipeline of the
metals-coach repository, covering:

* `market_regime.py` — `classify_regime`, `analyze_participation`,
  `analyze_positioning` (the pillar classifiers referenced by the claims);
* `backtest_runner.py` — `slice_to_date`, `compute_state_for_date`,
  `calculate_forward_returns`, `encode_state_hash`, `run_backtest`;
* `backtest_aggregator.py` — `aggregate_by_state` (grouping/filter skeleton)
  and `calculate_confidence_scores`;
* `forward_expectations.py` — `get_forward_expectations` (no-data branches).

Python floats are modelled as `ℚ`, dates as `ℤ`, `None` as `Option`, raised
exceptions as `Except`.  Each definition is translated from the corresponding
source function; comments note where ancillary output fields (free-text
descriptions, condition lists) that no claim refers to are elided.
-/

/-- Regime labels produced by `classify_regime` in `market_regime.py`. -/
inductive Regime where
  | uptrend
  | downtrend
  | range
  | unknown
deriving DecidableEq, Repr

/-- Positioning labels produced by `analyze_positioning` in `market_regime.py`. -/
inductive Positioning where
  | crowded_long
  | washed_out
  | elevated_long
  | light_positioning
  | neutral
  | unknown
deriving DecidableEq, Repr

/-- Participation labels produced by `analyze_participation` in `market_regime.py`. -/
inductive Participation where
  | confirming
  | thinning
  | distribution
  | accumulation
  | neutral
  | unknown
deriving DecidableEq, Repr

/-- Helper for `classify_regime`: `price_vs_200 = ((price - sma200) / sma200) * 100
if sma200 != 0 else 0` (market_regime.py line 66). -/
def price_vs_200_pct (price sma200 : ℚ) : ℚ :=
  if sma200 ≠ 0 then (price - sma200) / sma200 * 100 else 0

/-- Embedding of `classify_regime(price, sma200, sma50, sma50_slope, adx)`
(market_regime.py lines 27-129).  Returns only the `regime` label; the
`description`, `conditions` and `metrics` entries of the returned dict are
string/number echoes of the inputs that no claim refers to.  Thresholds `0.2`
and `3` and the `adx=15` / `sma50_slope=0` defaults are taken verbatim from the
source. -/
def classify_regime (price sma200 sma50 sma50_slope adx : Option ℚ) : Regime :=
  match price, sma200, sma50 with
  | some p, some s200, some s50 =>
    let a : ℚ := adx.getD 15
    let sl : ℚ := sma50_slope.getD 0
    if a < 18 ∨ (|price_vs_200_pct p s200| < 3 ∧ |sl| ≤ 1/5) then Regime.range
    else if p > s200 ∧ s50 > s200 ∧ sl > 1/5 ∧ a > 18 then Regime.uptrend
    else if p < s200 ∧ ¬(s50 > s200) ∧ sl < -(1/5) ∧ a > 18 then Regime.downtrend
    else if p > s200 ∧ a > 18 then Regime.uptrend
    else if p < s200 ∧ a > 18 then Regime.downtrend
    else Regime.range
  | _, _, _ => Regime.unknown

/-- Embedding of `analyze_positioning(cot_percentile, cot_net_position)`
(market_regime.py lines 357-417).  Returns the `status` label; the net
position argument only feeds a display string in the source, so it is not
needed here. -/
def analyze_positioning (cot_percentile : Option ℚ) : Positioning :=
  match cot_percentile with
  | none => Positioning.unknown
  | some pct =>
    if pct > 80 then Positioning.crowded_long
    else if pct < 20 then Positioning.washed_out
    else if pct > 65 then Positioning.elevated_long
    else if pct < 35 then Positioning.light_positioning
    else Positioning.neutral

/-- Result of `up_down_volume_ratio` as consumed by `analyze_participation`:
either an error dict, or a dict carrying `vol_ratio` and `interpretation`. -/
inductive UpDownVolume where
  | err
  | ok (vol_ratio : ℚ) (interpretation : String)
deriving DecidableEq, Repr

/-- Python truthiness test `if obv_slope` used at market_regime.py lines 276-277
(`None` and `0` are falsy). -/
def qTruthy (x : Option ℚ) : Bool :=
  match x with
  | none => false
  | some v => v ≠ 0

/-- `obv_rising = obv_slope > 0.5 if obv_slope else False` (market_regime.py
line 276), with the source's truthiness guard. -/
def obv_rising (obv_slope : Option ℚ) : Bool :=
  if qTruthy obv_slope then decide (obv_slope.getD 0 > 1/2) else false

/-- `obv_falling = obv_slope < -0.5 if obv_slope else False` (market_regime.py
line 277), with the source's truthiness guard. -/
def obv_falling (obv_slope : Option ℚ) : Bool :=
  if qTruthy obv_slope then decide (obv_slope.getD 0 < -(1/2)) else false

/-- Embedding of `analyze_participation(up_down_volume, obv_slope, obv_vs_sma,
price_direction)` (market_regime.py lines 235-321).  Returns the `status`
label. -/
def analyze_participation (up_down_volume : UpDownVolume) (obv_slope : Option ℚ)
    (obv_vs_sma : String) (price_direction : String) : Participation :=
  match up_down_volume with
  | UpDownVolume.err => Participation.unknown
  | UpDownVolume.ok vol_ratio vol_interpretation =>
    let obv_bullish : Bool := obv_vs_sma = "above"
    if price_direction = "up" then
      if vol_ratio > 11/10 ∧ (obv_rising obv_slope ∨ obv_bullish) then Participation.confirming
      else if vol_ratio < 9/10 ∨ obv_falling obv_slope then Participation.thinning
      else if vol_ratio < 9/10 ∧ obv_falling obv_slope then Participation.distribution
      else Participation.neutral
    else if price_direction = "down" then
      if vol_ratio < 9/10 ∧ obv_falling obv_slope then Participation.confirming
      else if vol_ratio > 11/10 ∨ obv_rising obv_slope then Participation.thinning
      else Participation.neutral
    else
      if vol_interpretation = "strong_selling" ∨ vol_interpretation = "selling" then
        Participation.distribution
      else if vol_interpretation = "strong_buying" ∨ vol_interpretation = "buying" then
        Participation.accumulation
      else Participation.neutral

/-- Python truthiness test for an optional string (`if regime else "unknown"`,
`if include_all and tailwind and positioning`): `None` and `""` are falsy. -/
def sTruthy (x : Option String) : Bool :=
  match x with
  | none => false
  | some s => s ≠ ""

/-- The `regime.lower() if regime else "unknown"` normalisation used in
`encode_state_hash`. -/
def normPillar (x : Option String) : String :=
  match x with
  | none => "unknown"
  | some s => if s = "" then "unknown" else s.toLower

/-- `regime_code` dict of `encode_state_hash` with its `.get(..., "x")` default. -/
def regime_code (s : String) : String :=
  if s = "uptrend" then "u" else if s = "downtrend" then "d"
  else if s = "range" then "r" else if s = "unknown" then "x" else "x"

/-- `momentum_code` dict of `encode_state_hash` with its `.get(..., "x")` default. -/
def momentum_code (s : String) : String :=
  if s = "accelerating" then "a" else if s = "cooling" then "c"
  else if s = "diverging" then "v" else if s = "steady" then "s"
  else if s = "unknown" then "x" else "x"

/-- `participation_code` dict of `encode_state_hash` with its `.get(..., "x")` default. -/
def participation_code (s : String) : String :=
  if s = "confirming" then "c" else if s = "thinning" then "t"
  else if s = "distribution" then "d" else if s = "accumulation" then "a"
  else if s = "neutral" then "n" else if s = "unknown" then "x" else "x"

/-- `tailwind_code` dict of the `include_all` branch of `encode_state_hash`. -/
def tailwind_code (s : String) : String :=
  if s = "supportive" then "s" else if s = "hostile" then "h"
  else if s = "mixed" then "m" else if s = "neutral" then "n"
  else if s = "unknown" then "x" else "x"

/-- `positioning_code_full` dict of the `include_all` branch of `encode_state_hash`. -/
def positioning_code_full (s : String) : String :=
  if s = "crowded_long" then "cl" else if s = "washed_out" then "wo"
  else if s = "elevated_long" then "el" else if s = "light_positioning" then "lp"
  else if s = "neutral" then "n" else if s = "unknown" then "u" else "x"

/-- Embedding of `encode_state_hash(regime, momentum, participation, tailwind,
positioning, include_all)` — identical copies live in backtest_runner.py lines
217-272 and forward_expectations.py lines 23-67.  Produces the state key string
such as `Ru_Ma_Pc`. -/
def encode_state_hash (regime momentum participation : Option String)
    (tailwind positioning : Option String) (include_all : Bool) : String :=
  let r := regime_code (normPillar regime)
  let m := momentum_code (normPillar momentum)
  let p := participation_code (normPillar participation)
  let base_hash := "R" ++ r ++ "_M" ++ m ++ "_P" ++ p
  if include_all && sTruthy tailwind && sTruthy positioning then
    base_hash ++ "_T" ++ tailwind_code (normPillar tailwind)
      ++ "_C" ++ positioning_code_full (normPillar positioning)
  else base_hash

/-- One bar of an OHLCV series with its date (`DatetimeIndex` entry modelled as
an integer day number; `Open/High/Low/Close/Volume` as rationals). -/
structure TimedBar where
  date : ℤ
  op : ℚ
  hi : ℚ
  lo : ℚ
  close : ℚ
  vol : ℚ
deriving DecidableEq, Repr

/-- `WARMUP_DAYS = 220` (backtest_runner.py line 28). -/
def WARMUP_DAYS : ℕ := 220

/-- `FORWARD_WINDOW = 20` (backtest_runner.py line 29). -/
def FORWARD_WINDOW : ℕ := 20

/-- Embedding of `slice_to_date(df, target_date)` (backtest_runner.py lines
75-89): keep exactly the rows whose date is `≤ target_date`. -/
def slice_to_date (df : List TimedBar) (target_date : ℤ) : List TimedBar :=
  df.filter (fun b => decide (b.date ≤ target_date))

/-- Embedding of `compute_state_for_date(full_history, target_date, metal)`
(backtest_runner.py lines 92-144).  The body slices the history, rejects
slices shorter than `WARMUP_DAYS`, and otherwise hands the slice to the pure
downstream computation `compute_indicators_from_df` +
`get_five_pillar_analysis` + record assembly.  That downstream computation is
a deterministic function of the sliced DataFrame alone (it receives no other
data), so it is abstracted here as an arbitrary `pipeline : List TimedBar →
Option α` (`none` covering the indicator-error and exception paths); every
theorem below holds for each such pipeline. -/
def compute_state_for_date {α : Type} (pipeline : List TimedBar → Option α)
    (full_history : List TimedBar) (target_date : ℤ) : Option α :=
  let sliced := slice_to_date full_history target_date
  if sliced.length < WARMUP_DAYS then none
  else pipeline sliced

/-- Forward-return record built by `calculate_forward_returns`
(backtest_runner.py lines 147-214); `None` entries become `none`. -/
structure FwdReturns where
  fwd_5d_return : Option ℚ
  fwd_10d_return : Option ℚ
  fwd_20d_return : Option ℚ
  fwd_5d_mae : Option ℚ
  fwd_5d_mfe : Option ℚ
  fwd_20d_mae : Option ℚ
  fwd_20d_mfe : Option ℚ
deriving DecidableEq, Repr

/-- `window.min()` of a pandas Series: minimum of a nonempty list (the `[]`
case is unreachable at every use site). -/
def pandasMin : List ℚ → ℚ
  | [] => 0
  | x :: xs => xs.foldl min x

/-- `window.max()` of a pandas Series: maximum of a nonempty list. -/
def pandasMax : List ℚ → ℚ
  | [] => 0
  | x :: xs => xs.foldl max x

/-- Embedding of the core of `calculate_forward_returns(full_history,
target_date, horizons)` (backtest_runner.py lines 147-214) once `target_date`
has been resolved to its integer position `target_idx` (the source's
`get_loc`): `closes` is the `Close` column.  Horizons are the default
`[5, 10, 20]`.  `iloc[target_idx : target_idx + 6]` is `drop`/`take`, and the
guards `target_idx + h < len` (returns) and `target_idx + 5 <= len`,
`target_idx + 20 <= len` (MAE/MFE) are verbatim from the source. -/
def calculate_forward_returns (closes : List ℚ) (target_idx : ℕ) : FwdReturns :=
  let base := closes.getD target_idx 0
  let ret : ℕ → Option ℚ := fun h =>
    if target_idx + h < closes.length then
      some ((closes.getD (target_idx + h) 0 - base) / base * 100)
    else none
  let w5 := (closes.drop target_idx).take 6
  let w20 := (closes.drop target_idx).take 21
  { fwd_5d_return := ret 5
    fwd_10d_return := ret 10
    fwd_20d_return := ret 20
    fwd_5d_mae :=
      if target_idx + 5 ≤ closes.length then some ((pandasMin w5 - base) / base * 100) else none
    fwd_5d_mfe :=
      if target_idx + 5 ≤ closes.length then some ((pandasMax w5 - base) / base * 100) else none
    fwd_20d_mae :=
      if target_idx + 20 ≤ closes.length then some ((pandasMin w20 - base) / base * 100) else none
    fwd_20d_mfe :=
      if target_idx + 20 ≤ closes.length then some ((pandasMax w20 - base) / base * 100) else none }

/-- Date-resolution wrapper of `calculate_forward_returns`: the source locates
`target_date` in the index (falling back to the nearest earlier date); for a
sorted index the resolved position is one less than the number of bars dated
`≤ target_date`.  When no bar is dated `≤ target_date` the source returns a
dict of `None` returns. -/
def calculate_forward_returns_by_date (df : List TimedBar) (target_date : ℤ) : FwdReturns :=
  let k := (df.filter (fun b => decide (b.date ≤ target_date))).length
  if k = 0 then
    { fwd_5d_return := none, fwd_10d_return := none, fwd_20d_return := none
      fwd_5d_mae := none, fwd_5d_mfe := none, fwd_20d_mae := none, fwd_20d_mfe := none }
  else calculate_forward_returns (df.map (fun b => b.close)) (k - 1)

/-- One backtest observation record assembled in the `run_backtest` loop
(backtest_runner.py lines 344-353): the state computed as of the walked date,
the forward metrics, and `valid = fwd_returns.get("fwd_20d_return") is not
None`. -/
structure BTRecord (α : Type) where
  state : α
  fwd : FwdReturns
  valid : Bool

/-- Python list stepping `all_dates[::step_days]` (backtest_runner.py line 321). -/
def takeEvery {τ : Type} (n : ℕ) : List τ → List τ
  | [] => []
  | x :: xs => x :: takeEvery n (xs.drop (n - 1))
termination_by l => l.length
decreasing_by
  simp only [List.length_cons, List.length_drop]
  omega

/-- Embedding of `run_backtest(metal, start_date, end_date, step_days,
verbose)` (backtest_runner.py lines 275-366) for the default date range, after
`load_full_history` has produced `full_history`.  The guard
`len(full_history) < WARMUP_DAYS + FORWARD_WINDOW` raises `ValueError
(f"Insufficient history for \x7bmetal\x7d")` before the walk loop runs, so the
error path emits no records; downstream state computation is the same
`pipeline` abstraction as in `compute_state_for_date`.  Dates whose state is
`None` are skipped (`continue`). -/
def run_backtest {α : Type} (pipeline : List TimedBar → Option α)
    (full_history : List TimedBar) (metal : String) (step_days : ℕ) :
    Except String (List (BTRecord α)) :=
  if full_history.length < WARMUP_DAYS + FORWARD_WINDOW then
    Except.error ("Insufficient history for " ++ metal)
  else
    let dates := full_history.map (fun b => b.date)
    let start_dt := dates.getD WARMUP_DAYS 0
    let end_dt := dates.getD (full_history.length - FORWARD_WINDOW - 1) 0
    let observation_dates :=
      takeEvery step_days (dates.filter (fun d => decide (start_dt ≤ d) && decide (d ≤ end_dt)))
    Except.ok <| observation_dates.filterMap (fun target_date =>
      match compute_state_for_date pipeline full_history target_date with
      | none => none
      | some st =>
        let fwd := calculate_forward_returns_by_date full_history target_date
        some { state := st, fwd := fwd, valid := fwd.fwd_20d_return.isSome })

/-- One row of the backtest-results DataFrame as consumed by
`aggregate_by_state`: the grouping key `state_hash` and the `valid` flag are
the columns the grouping/filter skeleton reads. -/
structure Obs where
  state_hash : String
  valid : Bool
deriving DecidableEq, Repr

/-- One row of the aggregated table: the grouping key and `n_samples = len
(group)`.  The per-group statistics columns (means, stds, hit rates, MAE/MFE
stats) are not referenced by the claims settled against this definition. -/
structure AggEntry where
  state_hash : String
  n_samples : ℕ
deriving DecidableEq, Repr

/-- Embedding of the grouping/filter skeleton of `aggregate_by_state(df,
min_samples, verbose)` (backtest_aggregator.py lines 34-128): restrict to
`valid == True` rows, group by `state_hash`, and skip any group with fewer
than `min_samples` rows (the source default is `min_samples = 10`). -/
def aggregate_by_state (df : List Obs) (min_samples : ℕ) : List AggEntry :=
  let valid_df := df.filter (fun o => o.valid)
  let hashes := (valid_df.map (fun o => o.state_hash)).dedup
  hashes.filterMap (fun h =>
    let group := valid_df.filter (fun o => o.state_hash == h)
    if group.length < min_samples then none
    else some { state_hash := h, n_samples := group.length })

/-- One aggregated row as read by `calculate_confidence_scores`
(backtest_aggregator.py lines 131-167): the four columns the score formula
uses. -/
structure AggRow where
  n_samples : ℕ
  mean_5d : ℚ
  std_5d : ℚ
  hit_rate_5d : ℚ
deriving DecidableEq, Repr

/-- The per-row score computed inside the loop of
`calculate_confidence_scores`: sample component `min(40, n * 0.4)`,
consistency component `max(0, 30 - min(cv * 5, 30))` with `cv = abs(std_5d /
mean_5d)` when `std_5d > 0 and abs(mean_5d) > 0.01` (else the default 15), hit
rate component `min(30, abs(hit_rate_5d - 50) * 0.6)`, total clamped by
`min(100, max(0, total))`. -/
def confidence_of_row (row : AggRow) : ℚ :=
  let sample_score : ℚ := min 40 ((row.n_samples : ℚ) * (2/5))
  let consistency_score : ℚ :=
    if row.std_5d > 0 ∧ |row.mean_5d| > 1/100 then
      max 0 (30 - min (|row.std_5d / row.mean_5d| * 5) 30)
    else 15
  let hr_score : ℚ := min 30 (|row.hit_rate_5d - 50| * (3/5))
  min 100 (max 0 (sample_score + consistency_score + hr_score))

/-- Embedding of `calculate_confidence_scores(agg_df)` (backtest_aggregator.py
lines 131-167): attach `confidence_of_row` to every row as the
`confidence_score` column. -/
def calculate_confidence_scores (agg_df : List AggRow) : List (AggRow × ℚ) :=
  agg_df.map (fun row => (row, confidence_of_row row))

/-- The fields of the `get_forward_expectations` response that the no-data
claims read.  In the `has_data = True` branch the source emits the full
statistics block, carried here as the matched row; its `message`/`suggestion`
keys do not exist in that branch, modelled as `""`. -/
structure Expectations where
  metal : String
  state_hash : String
  has_data : Bool
  message : String
  suggestion : String
  total_states_available : Option ℕ
  stats : Option AggEntry
deriving DecidableEq, Repr

/-- Embedding of `get_forward_expectations(current_five_pillar, metal)`
(forward_expectations.py lines 268-392).  The pillar labels extracted from the
five-pillar dict are the three arguments; `agg_stats` is `none` when
`load_aggregated_stats` finds no file, otherwise the aggregated table;
`state_match = agg_stats[agg_stats["state_hash"] == state_hash]` is the
filter. -/
def get_forward_expectations (regime momentum participation : Option String)
    (agg_stats : Option (List AggEntry)) (metal : String) : Expectations :=
  let state_hash := encode_state_hash regime momentum participation none none false
  match agg_stats with
  | none =>
    { metal := metal
      state_hash := state_hash
      has_data := false
      message := "No backtest data available for " ++ metal
        ++ ". Run: python backtest_runner.py " ++ metal
      suggestion := "Historical statistics not yet computed"
      total_states_available := none
      stats := none }
  | some table =>
    match table.filter (fun r => r.state_hash == state_hash) with
    | [] =>
      { metal := metal
        state_hash := state_hash
        has_data := false
        message := "This state combination is rare in historical data"
        suggestion := "Insufficient observations - use caution and rely on other signals"
        total_states_available := some table.length
        stats := none }
    | r :: _ =>
      { metal := metal
        state_hash := state_hash
        has_data := true
        message := ""
        suggestion := ""
        total_states_available := none
        stats := some r }

/-! ### Helper lemmas -/

theorem foldl_min_le_init (xs : List ℚ) (x : ℚ) : xs.foldl min x ≤ x := by
  induction xs generalizing x with
  | nil => exact le_refl x
  | cons y ys ih => exact le_trans (ih (min x y)) (min_le_left x y)

theorem foldl_min_le_mem (xs : List ℚ) (x : ℚ) : ∀ c ∈ xs, xs.foldl min x ≤ c := by
  induction xs generalizing x with
  | nil => intro c hc; exact absurd hc (List.not_mem_nil c)
  | cons y ys ih =>
    intro c hc
    rcases List.mem_cons.mp hc with rfl | hc
    · exact le_trans (foldl_min_le_init ys (min x c)) (min_le_right x c)
    · exact ih (min x y) c hc

theorem foldl_min_mem (xs : List ℚ) (x : ℚ) : xs.foldl min x = x ∨ xs.foldl min x ∈ xs := by
  induction xs generalizing x with
  | nil => exact Or.inl rfl
  | cons y ys ih =>
    rcases ih (min x y) with h | h
    · rcases min_choice x y with hm | hm
      · exact Or.inl (by rw [List.foldl_cons, h, hm])
      · exact Or.inr (by rw [List.foldl_cons, h, hm]; exact List.mem_cons_self y ys)
    · exact Or.inr (List.mem_cons_of_mem y h)

theorem pandasMin_mem (l : List ℚ) (h : l ≠ []) : pandasMin l ∈ l := by
  match l with
  | [] => exact absurd rfl h
  | x :: xs =>
    show xs.foldl min x ∈ x :: xs
    rcases foldl_min_mem xs x with h' | h'
    · rw [h']; exact List.mem_cons_self x xs
    · exact List.mem_cons_of_mem x h'

theorem pandasMin_le (l : List ℚ) : ∀ c ∈ l, pandasMin l ≤ c := by
  match l with
  | [] => intro c hc; exact absurd hc (List.not_mem_nil c)
  | x :: xs =>
    intro c hc
    rcases List.mem_cons.mp hc with rfl | hc
    · exact foldl_min_le_init xs c
    · exact foldl_min_le_mem xs x c hc

theorem foldl_max_init_le (xs : List ℚ) (x : ℚ) : x ≤ xs.foldl max x := by
  induction xs generalizing x with
  | nil => exact le_refl x
  | cons y ys ih => exact le_trans (le_max_left x y) (ih (max x y))

theorem foldl_max_mem_le (xs : List ℚ) (x : ℚ) : ∀ c ∈ xs, c ≤ xs.foldl max x := by
  induction xs generalizing x with
  | nil => intro c hc; exact absurd hc (List.not_mem_nil c)
  | cons y ys ih =>
    intro c hc
    rcases List.mem_cons.mp hc with rfl | hc
    · exact le_trans (le_max_right x c) (foldl_max_init_le ys (max x c))
    · exact ih (max x y) c hc

theorem foldl_max_mem (xs : List ℚ) (x : ℚ) : xs.foldl max x = x ∨ xs.foldl max x ∈ xs := by
  induction xs generalizing x with
  | nil => exact Or.inl rfl
  | cons y ys ih =>
    rcases ih (max x y) with h | h
    · rcases max_choice x y with hm | hm
      · exact Or.inl (by rw [List.foldl_cons, h, hm])
      · exact Or.inr (by rw [List.foldl_cons, h, hm]; exact List.mem_cons_self y ys)
    · exact Or.inr (List.mem_cons_of_mem y h)

theorem pandasMax_mem (l : List ℚ) (h : l ≠ []) : pandasMax l ∈ l := by
  match l with
  | [] => exact absurd rfl h
  | x :: xs =>
    show xs.foldl max x ∈ x :: xs
    rcases foldl_max_mem xs x with h' | h'
    · rw [h']; exact List.mem_cons_self x xs
    · exact List.mem_cons_of_mem x h'

theorem pandasMax_ge (l : List ℚ) : ∀ c ∈ l, c ≤ pandasMax l := by
  match l with
  | [] => intro c hc; exact absurd hc (List.not_mem_nil c)
  | x :: xs =>
    intro c hc
    rcases List.mem_cons.mp hc with rfl | hc
    · exact foldl_max_init_le xs c
    · exact foldl_max_mem_le xs x c hc

/-! ### Claim theorems -/

/-- C1.  No-look-ahead: the state `compute_state_for_date` computes for date
`D` depends only on the bars dated `≤ D`.  First conjunct: two series agreeing
on all bars dated `≤ D` (i.e. with equal `slice_to_date` slices) give
identical states, for every downstream pipeline.  Second conjunct: appending
arbitrary bars dated after `D` never changes the state as of `D`. -/
theorem no_look_ahead :
    (∀ (α : Type) (pipeline : List TimedBar → Option α) (df1 df2 : List TimedBar) (D : ℤ),
        slice_to_date df1 D = slice_to_date df2 D →
        compute_state_for_date pipeline df1 D = compute_state_for_date pipeline df2 D)
    ∧ (∀ (α : Type) (pipeline : List TimedBar → Option α) (df future : List TimedBar) (D : ℤ),
        (∀ b ∈ future, D < b.date) →
        compute_state_for_date pipeline (df ++ future) D
          = compute_state_for_date pipeline df D) := by
  constructor
  · intro α pipeline df1 df2 D h
    simp only [compute_state_for_date, h]
  · intro α pipeline df future D h
    have hnil : future.filter (fun b => decide (b.date ≤ D)) = [] := by
      rw [List.filter_eq_nil_iff]
      intro b hb
      simp only [decide_eq_true_eq]
      exact not_le.mpr (h b hb)
    have hslice : slice_to_date (df ++ future) D = slice_to_date df D := by
      simp only [slice_to_date, List.filter_append, hnil, List.append_nil]
    simp only [compute_state_for_date, hslice]

/-- Witness for C1: appending one future-dated bar to the empty history leaves
the state as of day 0 unchanged. -/
theorem no_look_ahead_witness :
    compute_state_for_date (fun l => some l.length)
        ([] ++ [{ date := 1, op := 0, hi := 0, lo := 0, close := 0, vol := 0 }]) 0
      = compute_state_for_date (fun l => some l.length) [] 0 :=
  no_look_ahead.2 ℕ (fun l => some l.length) []
    [{ date := 1, op := 0, hi := 0, lo := 0, close := 0, vol := 0 }] 0 (by decide)

/-- C2.  Regime rule precedence: with price, sma200 and sma50 present,
`classify_regime` returns `range` whenever ADX is below 18 (weak trend) or the
price sits within 3% of the 200-day SMA with a flat (|slope| ≤ 0.2) 50-day
slope — this rule is checked first — and the scenario price=110, sma200=100,
sma50=105, slope=+2.0, adx=25 classifies as `uptrend`. -/
theorem regime_range_precedence :
    (∀ p s200 s50 sl a : ℚ,
        a < 18 ∨ (|price_vs_200_pct p s200| < 3 ∧ |sl| ≤ 1/5) →
        classify_regime (some p) (some s200) (some s50) (some sl) (some a) = Regime.range)
    ∧ classify_regime (some 110) (some 100) (some 105) (some 2) (some 25) = Regime.uptrend := by
  constructor
  · intro p s200 s50 sl a h
    simp only [classify_regime, Option.getD_some]
    rw [if_pos h]
  · norm_num [classify_regime, price_vs_200_pct]

/-- Witness for C2: a weak-ADX input classifies as `range`. -/
theorem regime_range_precedence_witness :
    classify_regime (some 100) (some 100) (some 100) (some 0) (some 10) = Regime.range :=
  regime_range_precedence.1 100 100 100 0 10 (Or.inl (by norm_num))

/-- C3.  Encoding collapse: the 3-pillar state key (`include_all = false`)
depends only on the regime/momentum/participation components — any two
tailwind/positioning values give the same key. -/
theorem encode_state_hash_three_pillar_projection :
    ∀ (regime momentum participation t1 c1 t2 c2 : Option String),
      encode_state_hash regime momentum participation t1 c1 false
        = encode_state_hash regime momentum participation t2 c2 false := by
  intro r m p t1 c1 t2 c2
  simp [encode_state_hash]

/-- Counterexample for C6 as stated: `classify_regime` with `adx = None` (and
price/sma200/sma50 present) substitutes the default `adx = 15` and classifies
the regime as `range` via the weak-trend rule — not as `unknown`. -/
theorem missing_adx_counterexample :
    classify_regime (some 110) (some 100) (some 105) (some 2) none = Regime.range
    ∧ Regime.range ≠ Regime.unknown := by
  constructor
  · norm_num [classify_regime]
  · decide

/-- C6 (amended).  Missing inputs degrade only the affected pillar:
`analyze_positioning` with `cot_percentile = None` yields `unknown`;
`classify_regime` yields `unknown` exactly when price, sma200 or sma50 is
missing, while a missing `adx` is defaulted to 15 (classifying `range` via the
weak-trend rule, for any inputs) and with the three price inputs present the
regime is never `unknown`. -/
theorem missing_input_degradation :
    analyze_positioning none = Positioning.unknown
    ∧ (∀ (price sma200 sma50 sl a : Option ℚ),
        price = none ∨ sma200 = none ∨ sma50 = none →
        classify_regime price sma200 sma50 sl a = Regime.unknown)
    ∧ (∀ (p s200 s50 : ℚ) (sl : Option ℚ),
        classify_regime (some p) (some s200) (some s50) sl none = Regime.range)
    ∧ (∀ (p s200 s50 : ℚ) (sl a : Option ℚ),
        classify_regime (some p) (some s200) (some s50) sl a ≠ Regime.unknown) := by
  refine ⟨rfl, ?_, ?_, ?_⟩
  · intro price sma200 sma50 sl a h
    cases price with
    | none => rfl
    | some p =>
      cases sma200 with
      | none => rfl
      | some s200 =>
        cases sma50 with
        | none => rfl
        | some s50 =>
          rcases h with h | h | h <;> exact absurd h (by simp)
  · intro p s200 s50 sl
    simp only [classify_regime, Option.getD_none]
    rw [if_pos (Or.inl (by norm_num))]
  · intro p s200 s50 sl a
    simp only [classify_regime]
    split
    · simp
    · split
      · simp
      · split
        · simp
        · split
          · simp
          · split <;> simp

/-- Witness for C6: `classify_regime` with a missing price is `unknown`. -/
theorem missing_input_degradation_witness :
    classify_regime none (some 1) (some 1) none none = Regime.unknown :=
  missing_input_degradation.2.1 none (some 1) (some 1) none none (Or.inl rfl)

/-- C10.  During rising price (`price_direction = "up"`) with usable volume
data, `analyze_participation` only ever returns `confirming`, `thinning` or
`neutral`; the `distribution` branch is unreachable because its guard
(`vol_ratio < 0.9` AND OBV falling) is subsumed by the preceding `thinning`
guard (`vol_ratio < 0.9` OR OBV falling). -/
theorem participation_up_distribution_unreachable :
    ∀ (vol_ratio : ℚ) (interpretation : String) (obv_slope : Option ℚ) (obv_vs_sma : String),
      (analyze_participation (UpDownVolume.ok vol_ratio interpretation) obv_slope obv_vs_sma "up"
          = Participation.confirming
        ∨ analyze_participation (UpDownVolume.ok vol_ratio interpretation) obv_slope obv_vs_sma "up"
          = Participation.thinning
        ∨ analyze_participation (UpDownVolume.ok vol_ratio interpretation) obv_slope obv_vs_sma "up"
          = Participation.neutral)
      ∧ analyze_participation (UpDownVolume.ok vol_ratio interpretation) obv_slope obv_vs_sma "up"
          ≠ Participation.distribution := by
  intro vr interp slope ovs
  simp only [analyze_participation, if_true]
  constructor
  · split
    · exact Or.inl rfl
    · split
      · exact Or.inr (Or.inl rfl)
      · split
        · rename_i h2 h3
          exact absurd (Or.inl h3.1) h2
        · exact Or.inr (Or.inr rfl)
  · split
    · simp
    · split
      · simp
      · split
        · rename_i h2 h3
          exact absurd (Or.inl h3.1) h2
        · simp

/-- C4.  Confidence score: every row's attached `confidence_score` equals the
sample component `min(40, n_samples*0.4)` plus the consistency component
(`max(0, 30 - min(|std_5d/mean_5d|*5, 30))`, or 15 when `std_5d` is not
positive or `|mean_5d| <= 0.01`) plus the hit-rate component
`min(30, |hit_rate_5d - 50|*0.6)`, clamped to [0, 100]; and the scenario
n_samples=50, std_5d=2.0, mean_5d=1.0, hit_rate_5d=62 scores 47.2 = 236/5. -/
theorem confidence_score_formula :
    (∀ (rows : List AggRow) (r : AggRow) (c : ℚ),
        (r, c) ∈ calculate_confidence_scores rows →
        c = min 100 (max 0 (min 40 ((r.n_samples : ℚ) * (2/5))
              + (if r.std_5d > 0 ∧ |r.mean_5d| > 1/100 then
                   max 0 (30 - min (|r.std_5d / r.mean_5d| * 5) 30)
                 else 15)
              + min 30 (|r.hit_rate_5d - 50| * (3/5)))))
    ∧ confidence_of_row { n_samples := 50, mean_5d := 1, std_5d := 2, hit_rate_5d := 62 }
        = 236/5 := by
  constructor
  · intro rows r c hmem
    simp only [calculate_confidence_scores, List.mem_map] at hmem
    obtain ⟨r', _hr, heq⟩ := hmem
    cases heq
    rfl
  · norm_num [confidence_of_row, min_def, max_def]

/-- Witness for C4: the scenario row scores 236/5 through
`calculate_confidence_scores`. -/
theorem confidence_score_formula_witness :
    (236/5 : ℚ)
      = min 100 (max 0 (min 40 (((⟨50, 1, 2, 62⟩ : AggRow).n_samples : ℚ) * (2/5))
          + (if (⟨50, 1, 2, 62⟩ : AggRow).std_5d > 0
                ∧ |(⟨50, 1, 2, 62⟩ : AggRow).mean_5d| > 1/100 then
               max 0 (30 - min (|(⟨50, 1, 2, 62⟩ : AggRow).std_5d
                  / (⟨50, 1, 2, 62⟩ : AggRow).mean_5d| * 5) 30)
             else 15)
          + min 30 (|(⟨50, 1, 2, 62⟩ : AggRow).hit_rate_5d - 50| * (3/5)))) :=
  confidence_score_formula.1 [⟨50, 1, 2, 62⟩] ⟨50, 1, 2, 62⟩ (236/5)
    (by
      have h : confidence_of_row ⟨50, 1, 2, 62⟩ = 236/5 := by
        norm_num [confidence_of_row, min_def, max_def]
      simp [calculate_confidence_scores, h])

/-- C8.  Minimum-sample filter: every row of the aggregated table satisfies
`min_samples ≤ n_samples`, and `n_samples` counts exactly the `valid = true`
observations bearing the row's state hash. -/
theorem aggregate_min_samples :
    ∀ (df : List Obs) (min_samples : ℕ) (row : AggEntry),
      row ∈ aggregate_by_state df min_samples →
      min_samples ≤ row.n_samples
      ∧ row.n_samples
          = (df.filter (fun o => o.valid && (o.state_hash == row.state_hash))).length := by
  intro df ms row hmem
  simp only [aggregate_by_state, List.mem_filterMap] at hmem
  obtain ⟨h, _hh, hsome⟩ := hmem
  split at hsome
  · exact absurd hsome (by simp)
  · rename_i hnlt
    obtain rfl := Option.some_inj.mp hsome
    refine ⟨Nat.le_of_not_lt hnlt, ?_⟩
    have hfun : (fun o : Obs => (o.state_hash == h) && o.valid)
        = (fun o : Obs => o.valid && (o.state_hash == h)) := by
      funext o
      exact Bool.and_comm _ _
    simp only [List.filter_filter, hfun]

/-- Witness for C8: ten identical valid observations survive the default
minimum of 10 and count exactly those observations. -/
theorem aggregate_min_samples_witness :
    10 ≤ (⟨"Ru_Ma_Pc", 10⟩ : AggEntry).n_samples
    ∧ (⟨"Ru_Ma_Pc", 10⟩ : AggEntry).n_samples
        = ((List.replicate 10 (⟨"Ru_Ma_Pc", true⟩ : Obs)).filter
            (fun o => o.valid && (o.state_hash == (⟨"Ru_Ma_Pc", 10⟩ : AggEntry).state_hash))).length :=
  aggregate_min_samples (List.replicate 10 ⟨"Ru_Ma_Pc", true⟩) 10 ⟨"Ru_Ma_Pc", 10⟩
    (by decide)

/-- C9.  Distinguishable no-data outcomes: with no aggregated table the
response is a non-error with `has_data = false` and the "Historical statistics
not yet computed" suggestion; with a table present but no matching key the
response has `has_data = false` and reports `total_states_available` equal to
the number of rows in the table. -/
theorem no_data_outcomes :
    (∀ (regime momentum participation : Option String) (metal : String),
        (get_forward_expectations regime momentum participation none metal).has_data = false
        ∧ (get_forward_expectations regime momentum participation none metal).suggestion
            = "Historical statistics not yet computed")
    ∧ (∀ (regime momentum participation : Option String) (metal : String)
          (table : List AggEntry),
        table.filter (fun r =>
            r.state_hash == encode_state_hash regime momentum participation none none false) = [] →
        (get_forward_expectations regime momentum participation (some table) metal).has_data
            = false
        ∧ (get_forward_expectations regime momentum participation
              (some table) metal).total_states_available = some table.length) := by
  constructor
  · intro r m p metal
    exact ⟨rfl, rfl⟩
  · intro r m p metal table hfilter
    simp [get_forward_expectations, hfilter]

/-- Witness for C9: a 50-row table with no key matching the current state
(all-unknown pillars encode to `Rx_Mx_Px`) reports `has_data = false` and 50
available states. -/
theorem no_data_outcomes_witness :
    (get_forward_expectations none none none
        (some (List.replicate 50 ⟨"Ru_Ma_Pc", 12⟩)) "gold").has_data = false
    ∧ (get_forward_expectations none none none
        (some (List.replicate 50 ⟨"Ru_Ma_Pc", 12⟩)) "gold").total_states_available = some 50 :=
  no_data_outcomes.2 none none none "gold"
    (List.replicate 50 ⟨"Ru_Ma_Pc", 12⟩) (by decide)

/-- C7.  InsufficientHistory is fatal and atomic: when the series is shorter
than warm-up (220) plus forward-window (20) bars, `run_backtest` returns the
`Insufficient history` error and never an (even empty) list of observation
records. -/
theorem insufficient_history_fatal :
    ∀ {α : Type} (pipeline : List TimedBar → Option α) (full_history : List TimedBar)
      (metal : String) (step_days : ℕ),
      full_history.length < WARMUP_DAYS + FORWARD_WINDOW →
      run_backtest pipeline full_history metal step_days
          = Except.error ("Insufficient history for " ++ metal)
      ∧ (∀ records : List (BTRecord α),
          run_backtest pipeline full_history metal step_days ≠ Except.ok records) := by
  intro α pipeline df metal step h
  have herr : run_backtest pipeline df metal step
      = Except.error ("Insufficient history for " ++ metal) := by
    unfold run_backtest
    rw [if_pos h]
  refine ⟨herr, fun recs hok => ?_⟩
  rw [herr] at hok
  exact Except.noConfusion hok

/-- Witness for C7: the empty series fails fatally with the error message and
yields no record list. -/
theorem insufficient_history_fatal_witness :
    run_backtest (fun l => some l.length) [] "gold" 1
        = Except.error ("Insufficient history for " ++ "gold")
    ∧ (∀ records : List (BTRecord ℕ),
        run_backtest (fun l => some l.length) [] "gold" 1 ≠ Except.ok records) :=
  insufficient_history_fatal (fun l => some l.length) [] "gold" 1 (by decide)

theorem window_ne_nil (closes : List ℚ) (i n : ℕ) (hn : 0 < n) (hi : i < closes.length) :
    (closes.drop i).take n ≠ [] := by
  apply List.ne_nil_of_length_pos
  rw [List.length_take, List.length_drop]
  omega

theorem excursion_min_spec (l : List ℚ) (base : ℚ) (hbase : 0 < base) (hne : l ≠ []) :
    (pandasMin l - base) / base * 100 ∈ l.map (fun c => (c - base) / base * 100)
    ∧ ∀ u ∈ l.map (fun c => (c - base) / base * 100), (pandasMin l - base) / base * 100 ≤ u := by
  constructor
  · exact List.mem_map_of_mem _ (pandasMin_mem l hne)
  · intro u hu
    obtain ⟨c, hc, rfl⟩ := List.mem_map.mp hu
    have h1 : pandasMin l - base ≤ c - base := by
      have := pandasMin_le l c hc
      linarith
    exact mul_le_mul_of_nonneg_right ((div_le_div_iff_of_pos_right hbase).mpr h1) (by norm_num)

theorem excursion_max_spec (l : List ℚ) (base : ℚ) (hbase : 0 < base) (hne : l ≠ []) :
    (pandasMax l - base) / base * 100 ∈ l.map (fun c => (c - base) / base * 100)
    ∧ ∀ u ∈ l.map (fun c => (c - base) / base * 100), u ≤ (pandasMax l - base) / base * 100 := by
  constructor
  · exact List.mem_map_of_mem _ (pandasMax_mem l hne)
  · intro u hu
    obtain ⟨c, hc, rfl⟩ := List.mem_map.mp hu
    have h1 : c - base ≤ pandasMax l - base := by
      have := pandasMax_ge l c hc
      linarith
    exact mul_le_mul_of_nonneg_right ((div_le_div_iff_of_pos_right hbase).mpr h1) (by norm_num)

/-- Counterexample for C5 as stated: on a 5-bar series with only 4 bars after
index 0, the claim says `fwd_5d_mae` should be `None`, but the guard
`target_idx + 5 <= len(full_history)` accepts the date and the code computes
the excursion over the truncated window `[D, D+4]`, returning `-10`. -/
theorem forward_mae_boundary_counterexample :
    List.length [(100 : ℚ), 90, 90, 90, 90] = 5
    ∧ (calculate_forward_returns [(100 : ℚ), 90, 90, 90, 90] 0).fwd_5d_mae = some (-10) := by
  constructor
  · rfl
  · norm_num [calculate_forward_returns, pandasMin, List.getD, min_def]

/-- C5 (amended).  Forward metrics by bar offset, for a positive base close:
the `h`-day forward return (`h ∈ {5,10,20}`) is the percent change of close
from bar `D` to bar `D+h` when at least `h` bars follow `D`, else `None`.
`fwd_5d_mae`/`fwd_5d_mfe` are the most negative / most positive percent
excursion of close from `D`'s close over the window of bars `[D, D+5]`
*truncated to the series end* — the source guard `target_idx + 5 <= len`
admits dates with only 4 following bars, computing the excursion over
`[D, D+4]` there instead of returning `None` — and they are `None` only when
fewer than 4 bars follow `D`; analogously for the 20-day metrics with window
`[D, D+20]` and guard `target_idx + 20 <= len`. -/
theorem forward_metrics_by_offset (closes : List ℚ) (i : ℕ)
    (hbase : 0 < closes.getD i 0) :
    ((i + 5 < closes.length →
        (calculate_forward_returns closes i).fwd_5d_return
          = some ((closes.getD (i + 5) 0 - closes.getD i 0) / closes.getD i 0 * 100))
      ∧ (¬ i + 5 < closes.length → (calculate_forward_returns closes i).fwd_5d_return = none))
    ∧ ((i + 10 < closes.length →
        (calculate_forward_returns closes i).fwd_10d_return
          = some ((closes.getD (i + 10) 0 - closes.getD i 0) / closes.getD i 0 * 100))
      ∧ (¬ i + 10 < closes.length → (calculate_forward_returns closes i).fwd_10d_return = none))
    ∧ ((i + 20 < closes.length →
        (calculate_forward_returns closes i).fwd_20d_return
          = some ((closes.getD (i + 20) 0 - closes.getD i 0) / closes.getD i 0 * 100))
      ∧ (¬ i + 20 < closes.length → (calculate_forward_returns closes i).fwd_20d_return = none))
    ∧ ((i + 5 ≤ closes.length →
        ∃ v, (calculate_forward_returns closes i).fwd_5d_mae = some v
          ∧ v ∈ ((closes.drop i).take 6).map
              (fun c => (c - closes.getD i 0) / closes.getD i 0 * 100)
          ∧ ∀ u ∈ ((closes.drop i).take 6).map
              (fun c => (c - closes.getD i 0) / closes.getD i 0 * 100), v ≤ u)
      ∧ (¬ i + 5 ≤ closes.length → (calculate_forward_returns closes i).fwd_5d_mae = none))
    ∧ ((i + 5 ≤ closes.length →
        ∃ v, (calculate_forward_returns closes i).fwd_5d_mfe = some v
          ∧ v ∈ ((closes.drop i).take 6).map
              (fun c => (c - closes.getD i 0) / closes.getD i 0 * 100)
          ∧ ∀ u ∈ ((closes.drop i).take 6).map
              (fun c => (c - closes.getD i 0) / closes.getD i 0 * 100), u ≤ v)
      ∧ (¬ i + 5 ≤ closes.length → (calculate_forward_returns closes i).fwd_5d_mfe = none))
    ∧ ((i + 20 ≤ closes.length →
        ∃ v, (calculate_forward_returns closes i).fwd_20d_mae = some v
          ∧ v ∈ ((closes.drop i).take 21).map
              (fun c => (c - closes.getD i 0) / closes.getD i 0 * 100)
          ∧ ∀ u ∈ ((closes.drop i).take 21).map
              (fun c => (c - closes.getD i 0) / closes.getD i 0 * 100), v ≤ u)
      ∧ (¬ i + 20 ≤ closes.length → (calculate_forward_returns closes i).fwd_20d_mae = none))
    ∧ ((i + 20 ≤ closes.length →
        ∃ v, (calculate_forward_returns closes i).fwd_20d_mfe = some v
          ∧ v ∈ ((closes.drop i).take 21).map
              (fun c => (c - closes.getD i 0) / closes.getD i 0 * 100)
          ∧ ∀ u ∈ ((closes.drop i).take 21).map
              (fun c => (c - closes.getD i 0) / closes.getD i 0 * 100), u ≤ v)
      ∧ (¬ i + 20 ≤ closes.length → (calculate_forward_returns closes i).fwd_20d_mfe = none)) := by
  refine ⟨⟨?_, ?_⟩, ⟨?_, ?_⟩, ⟨?_, ?_⟩, ⟨?_, ?_⟩, ⟨?_, ?_⟩, ⟨?_, ?_⟩, ⟨?_, ?_⟩⟩
  · intro h
    simp only [calculate_forward_returns]
    rw [if_pos h]
  · intro h
    simp only [calculate_forward_returns]
    rw [if_neg h]
  · intro h
    simp only [calculate_forward_returns]
    rw [if_pos h]
  · intro h
    simp only [calculate_forward_returns]
    rw [if_neg h]
  · intro h
    simp only [calculate_forward_returns]
    rw [if_pos h]
  · intro h
    simp only [calculate_forward_returns]
    rw [if_neg h]
  · intro h
    have hne : (closes.drop i).take 6 ≠ [] :=
      window_ne_nil closes i 6 (by norm_num) (by omega)
    obtain ⟨hmem, hle⟩ :=
      excursion_min_spec ((closes.drop i).take 6) (closes.getD i 0) hbase hne
    refine ⟨(pandasMin ((closes.drop i).take 6) - closes.getD i 0) / closes.getD i 0 * 100,
      ?_, hmem, hle⟩
    simp only [calculate_forward_returns]
    rw [if_pos h]
  · intro h
    simp only [calculate_forward_returns]
    rw [if_neg h]
  · intro h
    have hne : (closes.drop i).take 6 ≠ [] :=
      window_ne_nil closes i 6 (by norm_num) (by omega)
    obtain ⟨hmem, hge⟩ :=
      excursion_max_spec ((closes.drop i).take 6) (closes.getD i 0) hbase hne
    refine ⟨(pandasMax ((closes.drop i).take 6) - closes.getD i 0) / closes.getD i 0 * 100,
      ?_, hmem, hge⟩
    simp only [calculate_forward_returns]
    rw [if_pos h]
  · intro h
    simp only [calculate_forward_returns]
    rw [if_neg h]
  · intro h
    have hne : (closes.drop i).take 21 ≠ [] :=
      window_ne_nil closes i 21 (by norm_num) (by omega)
    obtain ⟨hmem, hle⟩ :=
      excursion_min_spec ((closes.drop i).take 21) (closes.getD i 0) hbase hne
    refine ⟨(pandasMin ((closes.drop i).take 21) - closes.getD i 0) / closes.getD i 0 * 100,
      ?_, hmem, hle⟩
    simp only [calculate_forward_returns]
    rw [if_pos h]
  · intro h
    simp only [calculate_forward_returns]
    rw [if_neg h]
  · intro h
    have hne : (closes.drop i).take 21 ≠ [] :=
      window_ne_nil closes i 21 (by norm_num) (by omega)
    obtain ⟨hmem, hge⟩ :=
      excursion_max_spec ((closes.drop i).take 21) (closes.getD i 0) hbase hne
    refine ⟨(pandasMax ((closes.drop i).take 21) - closes.getD i 0) / closes.getD i 0 * 100,
      ?_, hmem, hge⟩
    simp only [calculate_forward_returns]
    rw [if_pos h]
  · intro h
    simp only [calculate_forward_returns]
    rw [if_neg h]

/-- Witness for C5: on a 7-bar series, the 5-day forward return from index 0
is the percent change from bar 0 to bar 5. -/
theorem forward_metrics_by_offset_witness :
    (calculate_forward_returns [(100 : ℚ), 110, 110, 110, 110, 120, 110] 0).fwd_5d_return
      = some (([(100 : ℚ), 110, 110, 110, 110, 120, 110].getD 5 0
          - [(100 : ℚ), 110, 110, 110, 110, 120, 110].getD 0 0)
          / [(100 : ℚ), 110, 110, 110, 110, 120, 110].getD 0 0 * 100) :=
  (forward_metrics_by_offset [(100 : ℚ), 110, 110, 110, 110, 120, 110] 0
      (by norm_num [List.getD])).1.1 (by norm_num)

/-- Witness for C3: a concrete 3-pillar key ignores two different
tailwind/positioning pairs. -/
theorem encode_state_hash_three_pillar_projection_witness :
    encode_state_hash (some "uptrend") (some "cooling") (some "confirming")
        (some "supportive") (some "crowded_long") false
      = encode_state_hash (some "uptrend") (some "cooling") (some "confirming")
        none none false :=
  encode_state_hash_three_pillar_projection (some "uptrend") (some "cooling")
    (some "confirming") (some "supportive") (some "crowded_long") none none

/-- Witness for C10: a concrete rising-price input is classified and is not
`distribution`. -/
theorem participation_up_distribution_unreachable_witness :
    (analyze_participation (UpDownVolume.ok 1 "neutral") none "below" "up"
        = Participation.confirming
      ∨ analyze_participation (UpDownVolume.ok 1 "neutral") none "below" "up"
        = Participation.thinning
      ∨ analyze_participation (UpDownVolume.ok 1 "neutral") none "below" "up"
        = Participation.neutral)
    ∧ analyze_participation (UpDownVolume.ok 1 "neutral") none "below" "up"
        ≠ Participation.distribution :=
  participation_up_distribution_unreachable 1 "neutral" none "below"
